import Mathlib

/-! Network manager: network types, states, the configuration check and the
subscription registry.

A shallow embedding of `lib/include/iot_network_manager.h` and
`lib/include/private/iot_network_config_defaults.h`.

Masks are the bit patterns of C integers, represented as natural numbers. The two
configuration macros are represented by their replacement lists, sequences of
preprocessing tokens, since the configuration check substitutes them token by token.
-/

namespace IotNetwork

/-! ## `iot_network_manager.h`: the enumerations -/

/-- The enumeration `IotNetworkType_t` (`iot_network_manager.h`, lines 44-52). -/
inductive IotNetworkType where
  | IOT_NETWORK_TYPE__NONE
  | IOT_NETWORK_TYPE__ETHERNET
  | IOT_NETWORK_TYPE__WIFI
  | IOT_NETWORK_TYPE__BLE
  | IOT_NETWORK_TYPE__802_15_4
  | IOT_NETWORK_TYPE__CELLULAR
  deriving DecidableEq, Repr, Fintype

/-- The enumeration `IotNetworkState_t` (`iot_network_manager.h`, lines 57-66). -/
inductive IotNetworkState where
  | IOT_NETWORK_STATE_DISABLED
  | IOT_NETWORK_STATE_DISCONNECTED
  | IOT_NETWORK_STATE_CONNECTED
  | IOT_NETWORK_STATE_PROVISIONED
  deriving DecidableEq, Repr, Fintype

/-- The enumeration `IotNetworkManagerError_t` (`iot_network_manager.h`, lines 69-78). -/
inductive IotNetworkManagerError where
  | IOT_NM_SUCCESS
  | IOT_NM_INVALID
  | IOT_NM_NOT_SUPPORTED
  | IOT_NM_NO_MEMORY
  | IOT_NM_INIT_FAILED
  | IOT_NM_INVALID_CREDENTIALS
  deriving DecidableEq, Repr

open IotNetworkType IotNetworkState IotNetworkManagerError

/-- The integer value of each `IotNetworkType_t` enumerator: every enumerator of
this enumeration has an explicit initialiser in the header. -/
def IotNetworkType.val : IotNetworkType → Nat
  | IOT_NETWORK_TYPE__NONE => 0
  | IOT_NETWORK_TYPE__ETHERNET => 1
  | IOT_NETWORK_TYPE__WIFI => 2
  | IOT_NETWORK_TYPE__BLE => 4
  | IOT_NETWORK_TYPE__802_15_4 => 8
  | IOT_NETWORK_TYPE__CELLULAR => 16

/-- The integer value of each `IotNetworkState_t` enumerator. The header gives no
initialisers, so C numbers the enumerators 0, 1, 2, 3 in declaration order. -/
def IotNetworkState.val : IotNetworkState → Nat
  | IOT_NETWORK_STATE_DISABLED => 0
  | IOT_NETWORK_STATE_DISCONNECTED => 1
  | IOT_NETWORK_STATE_CONNECTED => 2
  | IOT_NETWORK_STATE_PROVISIONED => 3

/-- The integer value of each `IotNetworkManagerError_t` enumerator:
`IOT_NM_SUCCESS = 0` and the following ones count up from it. -/
def IotNetworkManagerError.val : IotNetworkManagerError → Nat
  | IOT_NM_SUCCESS => 0
  | IOT_NM_INVALID => 1
  | IOT_NM_NOT_SUPPORTED => 2
  | IOT_NM_NO_MEMORY => 3
  | IOT_NM_INIT_FAILED => 4
  | IOT_NM_INVALID_CREDENTIALS => 5

/-- The bitwise OR of the `IotNetworkType_t` values of a set of network types. -/
def maskOf (A : Finset IotNetworkType) : Nat :=
  A.fold (· ||| ·) 0 IotNetworkType.val

/-- The mask with all five defined network-type bits set,
`ETHERNET | WIFI | BLE | 802_15_4 | CELLULAR`. -/
def allDefinedTypes : Nat :=
  IOT_NETWORK_TYPE__ETHERNET.val ||| IOT_NETWORK_TYPE__WIFI.val ||| IOT_NETWORK_TYPE__BLE.val |||
    IOT_NETWORK_TYPE__802_15_4.val ||| IOT_NETWORK_TYPE__CELLULAR.val

/-! ## `iot_network_config_defaults.h`: the configuration check -/

/-- The C operator `~` on a 64-bit mask (the width of preprocessor arithmetic). -/
def maskNot (s : Nat) : Nat := 2 ^ 64 - 1 - s % 2 ^ 64

/-- The binary operators of the constant expressions modelled here. -/
inductive BinaryOperator where
  | bitOr
  | bitXor
  | bitAnd
  | equal
  | notEqual
  deriving DecidableEq, Repr

/-- The preprocessing tokens of a macro replacement list, after the macros inside it
have been expanded: an integer constant, an identifier that is not a macro (here an
enumerator of `IotNetworkType_t`, the only names the header gives to network types),
parentheses, `~`, and the binary operators `|`, `^`, `&`, `==` and `!=`. -/
inductive PPToken where
  | number (value : Nat)
  | enumerator (name : IotNetworkType)
  | lparen
  | rparen
  | bitNot
  | binary (op : BinaryOperator)
  deriving DecidableEq, Repr

/-- The precedence of the binary operators in C, lowest first: `|`, then `^`, then
`&`, then `==` and `!=`. All of them associate to the left. -/
def BinaryOperator.precedence : BinaryOperator → Nat
  | BinaryOperator.bitOr => 1
  | BinaryOperator.bitXor => 2
  | BinaryOperator.bitAnd => 3
  | BinaryOperator.equal => 4
  | BinaryOperator.notEqual => 4

/-- The value of a binary operator on two 64-bit patterns; `==` and `!=` yield 1
or 0. -/
def BinaryOperator.apply : BinaryOperator → Nat → Nat → Nat
  | BinaryOperator.bitOr, a, b => a ||| b
  | BinaryOperator.bitXor, a, b => a ^^^ b
  | BinaryOperator.bitAnd, a, b => a &&& b
  | BinaryOperator.equal, a, b => if a = b then 1 else 0
  | BinaryOperator.notEqual, a, b => if a = b then 0 else 1

/-- An operator that has been read and waits for its right operand. -/
inductive PendingOperator where
  | lparen
  | bitNot
  | binary (op : BinaryOperator)
  deriving DecidableEq, Repr

/-- The unary `~` binds tighter than every binary operator. -/
def PendingOperator.precedence : PendingOperator → Nat
  | PendingOperator.lparen => 0
  | PendingOperator.bitNot => 5
  | PendingOperator.binary op => op.precedence

/-- Apply a pending operator to the operands on top of the operand stack. -/
def applyPending : PendingOperator → List Nat → Option (List Nat)
  | PendingOperator.binary op, b :: a :: rest => some (op.apply a b :: rest)
  | PendingOperator.bitNot, a :: rest => some (maskNot a :: rest)
  | _, _ => none

/-- Apply the pending operators that bind at least as tightly as precedence `p`, down
to the innermost open parenthesis. -/
def reducePending (p : Nat) : List PendingOperator → List Nat →
    Option (List PendingOperator × List Nat)
  | [], operands => some ([], operands)
  | PendingOperator.lparen :: pending, operands =>
    some (PendingOperator.lparen :: pending, operands)
  | top :: pending, operands =>
    if p ≤ top.precedence then
      match applyPending top operands with
      | some operands' => reducePending p pending operands'
      | none => none
    else
      some (top :: pending, operands)

/-- Evaluate a sequence of tokens as a C constant expression by operator precedence,
reading the tokens from left to right with a stack of pending operators and a stack
of operands. `expectOperand` says whether the next token must start an operand. The
result is `none` when the tokens do not form an expression, or when an integer
constant does not fit in 64 bits. `identifierValue` gives the value of an
enumerator. -/
def evalTokens (identifierValue : IotNetworkType → Nat) :
    List PPToken → Bool → List PendingOperator → List Nat → Option Nat
  | [], expectOperand, pending, operands =>
    if expectOperand then none
    else
      match reducePending 0 pending operands with
      | some ([], [v]) => some v
      | _ => none
  | PPToken.number n :: rest, true, pending, operands =>
    if n < 2 ^ 64 then evalTokens identifierValue rest false pending (n :: operands) else none
  | PPToken.enumerator t :: rest, true, pending, operands =>
    evalTokens identifierValue rest false pending (identifierValue t :: operands)
  | PPToken.lparen :: rest, true, pending, operands =>
    evalTokens identifierValue rest true (PendingOperator.lparen :: pending) operands
  | PPToken.bitNot :: rest, true, pending, operands =>
    evalTokens identifierValue rest true (PendingOperator.bitNot :: pending) operands
  | PPToken.rparen :: rest, false, pending, operands =>
    match reducePending 0 pending operands with
    | some (PendingOperator.lparen :: pending', operands') =>
      evalTokens identifierValue rest false pending' operands'
    | _ => none
  | PPToken.binary op :: rest, false, pending, operands =>
    match reducePending op.precedence pending operands with
    | some (pending', operands') =>
      evalTokens identifierValue rest true (PendingOperator.binary op :: pending') operands'
    | none => none
  | _ :: _, _, _, _ => none

/-- The value of a token sequence in a `#if` directive: there every identifier that
is left after macro expansion, an enumerator included, is replaced by 0. -/
def ifValue (tokens : List PPToken) : Option Nat :=
  evalTokens (fun _ => 0) tokens true [] []

/-- The value of a token sequence as an expression of C code, where an enumerator
has its value. This is the mask that the code compiled with the configuration
uses. -/
def cValue (tokens : List PPToken) : Option Nat :=
  evalTokens IotNetworkType.val tokens true [] []

/-- The controlling expression of the `#if` of line 39,
`( ( configENABLED_NETWORKS | configSUPPORTED_NETWORKS ) != configSUPPORTED_NETWORKS )`,
after macro expansion: the replacement lists of the two macros are substituted as
they are, without parentheses of their own. -/
def subsetCondition (configENABLED_NETWORKS configSUPPORTED_NETWORKS : List PPToken) :
    List PPToken :=
  [PPToken.lparen, PPToken.lparen] ++ configENABLED_NETWORKS ++
    [PPToken.binary BinaryOperator.bitOr] ++ configSUPPORTED_NETWORKS ++
    [PPToken.rparen, PPToken.binary BinaryOperator.notEqual] ++ configSUPPORTED_NETWORKS ++
    [PPToken.rparen]

/-- The diagnostics that `iot_network_config_defaults.h` can produce: its three
`#error` directives, and a controlling expression of line 39 that is not a valid
constant expression. -/
inductive ConfigError where
  | supportedNetworksNotDefined
  | enabledNetworksNotDefined
  | enabledNotSubsetOfSupported
  | invalidIfExpression
  deriving DecidableEq, Repr

/-- The preprocessor conditionals of `iot_network_config_defaults.h` (lines 28-42),
as a function of the two macros `configENABLED_NETWORKS` and
`configSUPPORTED_NETWORKS`: `none` when the macro is not defined, `some tokens` when
it is defined with that replacement list. The result lists the diagnostics that are
produced: line 39 is read only when both macros are defined (line 38), and its
`#error` is reached when the controlling expression is not 0. -/
def configDefaultsErrors (configENABLED_NETWORKS configSUPPORTED_NETWORKS :
    Option (List PPToken)) : List ConfigError :=
  (match configSUPPORTED_NETWORKS with
    | none => [ConfigError.supportedNetworksNotDefined]
    | some _ => []) ++
  (match configENABLED_NETWORKS with
    | none => [ConfigError.enabledNetworksNotDefined]
    | some _ => []) ++
  (match configENABLED_NETWORKS, configSUPPORTED_NETWORKS with
    | some e, some s =>
      match ifValue (subsetCondition e s) with
      | none => [ConfigError.invalidIfExpression]
      | some v => if v != 0 then [ConfigError.enabledNotSubsetOfSupported] else []
    | _, _ => [])

/-- The configuration is accepted when no diagnostic is produced. -/
def configAccepted (configENABLED_NETWORKS configSUPPORTED_NETWORKS :
    Option (List PPToken)) : Bool :=
  (configDefaultsErrors configENABLED_NETWORKS configSUPPORTED_NETWORKS).isEmpty

/-! ## The state table, the subscription registry and the dispatcher

`iot_network_manager.h` only declares the operations; the file that implements them
is not part of the sources at hand. The definitions of this section follow the
contracts of the specification (sections 3, 4.1, 4.2 and 4.3). Network types, masks,
callbacks (function pointers) and contexts (`void *`) are natural numbers; the null
pointer is `0`. Calls are sequential and a callback is an opaque identifier: the
model records which callbacks a dispatch invokes, in order, and a callback does not
call back into the manager. -/

/-- Modelled from the spec: the subscription record kept by the registry, whose C
definition (`struct NetworkManagerSubscription_t`) is only forward-declared in the
header. A record associates a network-type bitmask with a callback and an opaque
context pointer (section 3); `handle` is the unique handle returned by subscribe. -/
structure NetworkManagerSubscription where
  handle : Nat
  xNetworkTypes : Nat
  xCallback : Nat
  pvContext : Nat
  deriving DecidableEq, Repr

/-- Modelled from the spec: one invocation of a state-change callback
(`IotNetworkStateChangeCb_t`, header line 94) made by the dispatcher, which is not in
the sources: the callback is invoked with `(type, state, context)` (section 4.3).
`handle` names the subscription on whose behalf the callback is invoked. -/
structure CallbackInvocation where
  handle : Nat
  xCallback : Nat
  xNetworkType : Nat
  xNetworkState : IotNetworkState
  pvContext : Nat
  deriving DecidableEq, Repr

/-- Modelled from the spec: the state of the network manager, whose C definition is
not in the sources. It holds the supported-networks mask supplied by the
configuration, the bound of the subscription pool, the state table (one current
state per network type, section 4.1), the active subscription records in
registration order (section 4.2) and the next handle to hand out: a handle is unique
(section 3) and is not handed out again after its record is removed, so that a stale
handle is detected (section 9). -/
structure NetworkManager where
  supportedNetworks : Nat
  poolSize : Nat
  networkStates : Nat → IotNetworkState
  subscriptions : List NetworkManagerSubscription
  nextHandle : Nat

/-- Modelled from the spec: the start-up state of the manager, whose C code is not in
the sources. Every network type is initialised to DISABLED (section 3) and there is
no subscription. Handles are numbered from 1, so the value of
`IOT_NM_SUBSCRIPTION_INITIALIZER` (0) never names an active subscription. -/
def IotNetworkManager_Init (supportedNetworks poolSize : Nat) : NetworkManager :=
  { supportedNetworks := supportedNetworks
    poolSize := poolSize
    networkStates := fun _ => IOT_NETWORK_STATE_DISABLED
    subscriptions := []
    nextHandle := 1 }

/-- Modelled from the spec: the argument check of `get_state` and `report_state`,
whose C code is not in the sources. A value is a single supported network type
unless it is zero, has multiple bits set, or its bit is unsupported (section 4.1). -/
def isSingleSupportedType (supportedNetworks networkType : Nat) : Bool :=
  networkType != 0 && (networkType &&& (networkType - 1)) == 0 &&
    (networkType &&& supportedNetworks) == networkType

/-- Modelled from the spec: `IotNetworkManager_GetAvailableNetworks`, declared in the
header (line 127) and not implemented in the sources. It returns the
supported-networks mask and never fails (section 4.4). -/
def IotNetworkManager_GetAvailableNetworks (m : NetworkManager) :
    IotNetworkManagerError × Nat :=
  (IOT_NM_SUCCESS, m.supportedNetworks)

/-- Modelled from the spec: `IotNetworkManager_GetNetworkState`, declared in the header
(line 136) and not implemented in the sources. It fails with INVALID if the type is
not a single supported network type, and otherwise yields the stored state
(section 4.1). -/
def IotNetworkManager_GetNetworkState (m : NetworkManager) (networkType : Nat) :
    IotNetworkManagerError × Option IotNetworkState :=
  if isSingleSupportedType m.supportedNetworks networkType then
    (IOT_NM_SUCCESS, some (m.networkStates networkType))
  else
    (IOT_NM_INVALID, none)

/-- Modelled from the spec: the dispatcher, whose C code is not in the sources. It
iterates the active subscriptions in registration order and, for each subscription
whose mask has the bit of the event type set, invokes its callback with
`(type, state, context)` (section 4.3). -/
def dispatch (subscriptions : List NetworkManagerSubscription) (networkType : Nat)
    (state : IotNetworkState) : List CallbackInvocation :=
  (subscriptions.filter (fun sub => sub.xNetworkTypes &&& networkType != 0)).map
    (fun sub =>
      { handle := sub.handle
        xCallback := sub.xCallback
        xNetworkType := networkType
        xNetworkState := state
        pvContext := sub.pvContext })

/-- The result of `IotNetworkManager_NotifyStateChange`: the error code, the manager
after the call and the callback invocations made during the call, in order. -/
structure NotifyResult where
  error : IotNetworkManagerError
  manager : NetworkManager
  invocations : List CallbackInvocation

/-- Modelled from the spec: `IotNetworkManager_NotifyStateChange` (the `report_state`
of the specification), declared in the header (line 184) and not implemented in the
sources. It fails with INVALID for an unsupported type; otherwise it replaces the
stored state and dispatches to the subscribers, whether or not the new state equals
the previous one (section 4.1). -/
def IotNetworkManager_NotifyStateChange (m : NetworkManager) (networkType : Nat)
    (state : IotNetworkState) : NotifyResult :=
  if isSingleSupportedType m.supportedNetworks networkType then
    { error := IOT_NM_SUCCESS
      manager :=
        { m with networkStates := fun t => if t = networkType then state else m.networkStates t }
      invocations := dispatch m.subscriptions networkType state }
  else
    { error := IOT_NM_INVALID, manager := m, invocations := [] }

/-- The result of `IotNetworkManager_SubscribeForStateChange`: the error code, the
handle written to the caller on success and the manager after the call. -/
structure SubscribeResult where
  error : IotNetworkManagerError
  handle : Option Nat
  manager : NetworkManager

/-- Modelled from the spec: `IotNetworkManager_SubscribeForStateChange`, declared in
the header (line 107) and not implemented in the sources. It fails with INVALID if the
mask has no bits in common with the supported-networks mask or if the callback is
null, and with NO_MEMORY if the bounded subscription pool is exhausted; on success it
appends a record and returns a unique handle referencing it (section 4.2). -/
def IotNetworkManager_SubscribeForStateChange (m : NetworkManager)
    (xNetworkTypes xCallback pvContext : Nat) : SubscribeResult :=
  if (xNetworkTypes &&& m.supportedNetworks) == 0 || xCallback == 0 then
    { error := IOT_NM_INVALID, handle := none, manager := m }
  else if m.poolSize ≤ m.subscriptions.length then
    { error := IOT_NM_NO_MEMORY, handle := none, manager := m }
  else
    { error := IOT_NM_SUCCESS
      handle := some m.nextHandle
      manager :=
        { m with
          subscriptions := m.subscriptions ++
            [{ handle := m.nextHandle
               xNetworkTypes := xNetworkTypes
               xCallback := xCallback
               pvContext := pvContext }]
          nextHandle := m.nextHandle + 1 } }

/-- A handle is active when it references a record of the registry. -/
def isActive (m : NetworkManager) (handle : Nat) : Bool :=
  m.subscriptions.any (fun sub => sub.handle == handle)

/-- Modelled from the spec: `IotNetworkManager_RemoveSubscription`, declared in the
header (line 118) and not implemented in the sources. It fails with INVALID if the
handle does not reference a currently active record; otherwise it removes the record
(section 4.2). -/
def IotNetworkManager_RemoveSubscription (m : NetworkManager) (handle : Nat) :
    IotNetworkManagerError × NetworkManager :=
  if isActive m handle then
    (IOT_NM_SUCCESS,
      { m with subscriptions := m.subscriptions.filter (fun sub => sub.handle != handle) })
  else
    (IOT_NM_INVALID, m)

/-- A call into the manager that can change it or invoke callbacks. -/
inductive Call where
  | subscribe (xNetworkTypes xCallback pvContext : Nat)
  | remove (handle : Nat)
  | notifyStateChange (networkType : Nat) (state : IotNetworkState)
  deriving DecidableEq, Repr

/-- One call: the manager after it and the callback invocations it made. -/
def step (m : NetworkManager) : Call → NetworkManager × List CallbackInvocation
  | Call.subscribe xNetworkTypes xCallback pvContext =>
    ((IotNetworkManager_SubscribeForStateChange m xNetworkTypes xCallback pvContext).manager, [])
  | Call.remove handle => ((IotNetworkManager_RemoveSubscription m handle).2, [])
  | Call.notifyStateChange networkType state =>
    ((IotNetworkManager_NotifyStateChange m networkType state).manager,
      (IotNetworkManager_NotifyStateChange m networkType state).invocations)

/-- A sequence of calls: the manager after the last one and all the callback
invocations made, in order. -/
def run (m : NetworkManager) : List Call → NetworkManager × List CallbackInvocation
  | [] => (m, [])
  | c :: cs => ((run (step m c).1 cs).1, (step m c).2 ++ (run (step m c).1 cs).2)

/-- The invocations made on behalf of the subscription with the given handle. -/
def invocationsOf (handle : Nat) (invocations : List CallbackInvocation) :
    List CallbackInvocation :=
  invocations.filter (fun inv => inv.handle == handle)

/-- The invariant of the registry: every active handle has been handed out, and the
records are in increasing order of handle. -/
def RegistryInv (m : NetworkManager) : Prop :=
  (∀ sub ∈ m.subscriptions, sub.handle < m.nextHandle) ∧
    m.subscriptions.Pairwise (fun a b => a.handle < b.handle)

/-- An example run: with WIFI and BLE supported and a pool of four records, a first
subscription for WIFI | BLE (callback 1, context 7). -/
def exampleFirst : SubscribeResult :=
  IotNetworkManager_SubscribeForStateChange (IotNetworkManager_Init 6 4) 6 1 7

theorem lor_eq_right_iff (e s : Nat) :
    (e ||| s) = s ↔ ∀ i, e.testBit i = true → s.testBit i = true := by
  constructor
  · intro h i hi
    rw [← h, Nat.testBit_or, hi, Bool.true_or]
  · intro h
    apply Nat.eq_of_testBit_eq
    intro i
    rw [Nat.testBit_or]
    cases he : e.testBit i
    · simp
    · simp [h i he]

theorem configAccepted_literals (e s : Nat) (he : e < 2 ^ 64) (hs : s < 2 ^ 64) :
    configAccepted (some [PPToken.number e]) (some [PPToken.number s]) = true ↔
      (e ||| s) = s := by
  have he' : e < 18446744073709551616 := he
  have hs' : s < 18446744073709551616 := hs
  by_cases h : (e ||| s) = s <;>
    simp [configAccepted, configDefaultsErrors, ifValue, subsetCondition, evalTokens,
      reducePending, applyPending, PendingOperator.precedence, BinaryOperator.precedence,
      BinaryOperator.apply, he', hs', h]

theorem testBit_maskNot (s : Nat) (hs : s < 2 ^ 64) (i : Nat) :
    (maskNot s).testBit i = (decide (i < 64) && !s.testBit i) := by
  have h : maskNot s = 2 ^ 64 - (s + 1) := by
    unfold maskNot
    rw [Nat.mod_eq_of_lt hs]
    omega
  rw [h, Nat.testBit_two_pow_sub_succ hs]

theorem testBit_lt_of_lt (e : Nat) (he : e < 2 ^ 64) (i : Nat) (hi : e.testBit i = true) :
    i < 64 := by
  by_contra hge
  have hle : 2 ^ 64 ≤ 2 ^ i := Nat.pow_le_pow_right (by decide) (by omega)
  have := Nat.testBit_lt_two_pow (Nat.lt_of_lt_of_le he hle)
  rw [hi] at this
  exact Bool.noConfusion this

theorem land_maskNot_eq_zero_iff (e s : Nat) (he : e < 2 ^ 64) (hs : s < 2 ^ 64) :
    e &&& maskNot s = 0 ↔ ∀ i, e.testBit i = true → s.testBit i = true := by
  constructor
  · intro h i hi
    have hb : (e &&& maskNot s).testBit i = false := by rw [h]; simp
    rw [Nat.testBit_and, testBit_maskNot s hs, hi] at hb
    have hlt := testBit_lt_of_lt e he i hi
    simpa [hlt] using hb
  · intro h
    apply Nat.eq_of_testBit_eq
    intro i
    rw [Nat.testBit_and, testBit_maskNot s hs, Nat.zero_testBit]
    cases hi : e.testBit i
    · simp
    · simp [h i hi]

/-! ## Lemmas on network-type masks -/

theorem val_eq_two_pow (t : IotNetworkType) (ht : t ≠ IOT_NETWORK_TYPE__NONE) :
    ∃ k, t.val = 2 ^ k := by
  cases t
  · exact absurd rfl ht
  · exact ⟨0, rfl⟩
  · exact ⟨1, rfl⟩
  · exact ⟨2, rfl⟩
  · exact ⟨3, rfl⟩
  · exact ⟨4, rfl⟩

theorem val_injective (a b : IotNetworkType) (h : a.val = b.val) : a = b := by
  cases a <;> cases b <;> first | rfl | exact absurd h (by decide)

theorem testBit_maskOf (A : Finset IotNetworkType) (i : Nat) :
    (maskOf A).testBit i = true ↔ ∃ t ∈ A, t.val.testBit i = true := by
  unfold maskOf
  induction A using Finset.induction_on with
  | empty => simp
  | insert hnot ih =>
    rw [Finset.fold_insert hnot, Nat.testBit_or, Bool.or_eq_true, ih]
    simp [Finset.mem_insert]

theorem land_two_pow_ne_zero_iff (m k : Nat) : m &&& 2 ^ k ≠ 0 ↔ m.testBit k = true := by
  constructor
  · intro h
    by_contra hk
    apply h
    apply Nat.eq_of_testBit_eq
    intro i
    rw [Nat.testBit_and, Nat.testBit_two_pow, Nat.zero_testBit]
    by_cases hik : k = i
    · subst hik
      simp [hk]
    · simp [hik]
  · intro h h0
    have : (m &&& 2 ^ k).testBit k = false := by rw [h0]; simp
    rw [Nat.testBit_and, Nat.testBit_two_pow, h] at this
    simp at this

theorem mem_iff_land_val_ne_zero (A : Finset IotNetworkType)
    (hA : IOT_NETWORK_TYPE__NONE ∉ A) (t : IotNetworkType) :
    t ∈ A ↔ maskOf A &&& t.val ≠ 0 := by
  by_cases ht : t = IOT_NETWORK_TYPE__NONE
  · subst ht
    simp [hA, IotNetworkType.val]
  · obtain ⟨k, hk⟩ := val_eq_two_pow t ht
    rw [hk, land_two_pow_ne_zero_iff, testBit_maskOf]
    constructor
    · intro hmem
      exact ⟨t, hmem, by rw [hk, Nat.testBit_two_pow]; simp⟩
    · rintro ⟨u, hu, hbit⟩
      have hune : u ≠ IOT_NETWORK_TYPE__NONE := fun h => hA (h ▸ hu)
      obtain ⟨j, hj⟩ := val_eq_two_pow u hune
      rw [hj, Nat.testBit_two_pow] at hbit
      have hjk : j = k := by simpa using hbit
      have : u = t := val_injective u t (by rw [hj, hk, hjk])
      exact this ▸ hu

theorem val_zero_or_two_pow (t : IotNetworkType) : t.val = 0 ∨ ∃ k, t.val = 2 ^ k := by
  by_cases ht : t = IOT_NETWORK_TYPE__NONE
  · exact Or.inl (by rw [ht]; rfl)
  · exact Or.inr (val_eq_two_pow t ht)

/-! ## Lemmas on the registry -/

theorem subscribe_cases (m : NetworkManager) (xNetworkTypes xCallback pvContext : Nat) :
    ((IotNetworkManager_SubscribeForStateChange m xNetworkTypes xCallback pvContext).error ≠
        IOT_NM_SUCCESS ∧
      (IotNetworkManager_SubscribeForStateChange m xNetworkTypes xCallback pvContext).handle =
        none ∧
      (IotNetworkManager_SubscribeForStateChange m xNetworkTypes xCallback pvContext).manager =
        m) ∨
    ((IotNetworkManager_SubscribeForStateChange m xNetworkTypes xCallback pvContext).error =
        IOT_NM_SUCCESS ∧
      (IotNetworkManager_SubscribeForStateChange m xNetworkTypes xCallback pvContext).handle =
        some m.nextHandle ∧
      (IotNetworkManager_SubscribeForStateChange m xNetworkTypes xCallback pvContext).manager =
        { m with
          subscriptions := m.subscriptions ++
            [{ handle := m.nextHandle
               xNetworkTypes := xNetworkTypes
               xCallback := xCallback
               pvContext := pvContext }]
          nextHandle := m.nextHandle + 1 }) := by
  unfold IotNetworkManager_SubscribeForStateChange
  split_ifs
  · exact Or.inl ⟨fun h => IotNetworkManagerError.noConfusion h, rfl, rfl⟩
  · exact Or.inl ⟨fun h => IotNetworkManagerError.noConfusion h, rfl, rfl⟩
  · exact Or.inr ⟨rfl, rfl, rfl⟩

theorem isActive_iff (m : NetworkManager) (h : Nat) :
    isActive m h = true ↔ ∃ sub ∈ m.subscriptions, sub.handle = h := by
  simp [isActive]

theorem mem_step_subscriptions (m : NetworkManager) (c : Call) (sub : NetworkManagerSubscription)
    (hsub : sub ∈ (step m c).1.subscriptions) :
    sub ∈ m.subscriptions ∨ m.nextHandle ≤ sub.handle := by
  cases c with
  | subscribe xNetworkTypes xCallback pvContext =>
    rcases subscribe_cases m xNetworkTypes xCallback pvContext with ⟨_, _, hm⟩ | ⟨_, _, hm⟩
    · simp only [step, hm] at hsub
      exact Or.inl hsub
    · simp only [step, hm, List.mem_append, List.mem_singleton] at hsub
      rcases hsub with h | h
      · exact Or.inl h
      · exact Or.inr (by rw [h])
  | remove handle =>
    simp only [step, IotNetworkManager_RemoveSubscription] at hsub
    split_ifs at hsub
    · exact Or.inl (List.mem_of_mem_filter hsub)
    · exact Or.inl hsub
  | notifyStateChange networkType state =>
    simp only [step, IotNetworkManager_NotifyStateChange] at hsub
    split_ifs at hsub <;> exact Or.inl hsub

theorem nextHandle_le_step (m : NetworkManager) (c : Call) :
    m.nextHandle ≤ (step m c).1.nextHandle := by
  cases c with
  | subscribe xNetworkTypes xCallback pvContext =>
    rcases subscribe_cases m xNetworkTypes xCallback pvContext with ⟨_, _, hm⟩ | ⟨_, _, hm⟩
    · simp only [step, hm, le_refl]
    · simp only [step, hm]
      exact Nat.le_succ _
  | remove handle =>
    simp only [step, IotNetworkManager_RemoveSubscription]
    split_ifs <;> exact le_refl _
  | notifyStateChange networkType state =>
    simp only [step, IotNetworkManager_NotifyStateChange]
    split_ifs <;> exact le_refl _

theorem registryInv_init (supportedNetworks poolSize : Nat) :
    RegistryInv (IotNetworkManager_Init supportedNetworks poolSize) := by
  constructor
  · intro sub hsub
    simp [IotNetworkManager_Init] at hsub
  · simp [IotNetworkManager_Init]

theorem registryInv_step (m : NetworkManager) (c : Call) (hinv : RegistryInv m) :
    RegistryInv (step m c).1 := by
  obtain ⟨hlt, hpw⟩ := hinv
  cases c with
  | subscribe xNetworkTypes xCallback pvContext =>
    rcases subscribe_cases m xNetworkTypes xCallback pvContext with ⟨_, _, hm⟩ | ⟨_, _, hm⟩
    · simp only [step, hm]
      exact ⟨hlt, hpw⟩
    · simp only [step, hm]
      constructor
      · intro sub hsub
        simp only [List.mem_append, List.mem_singleton] at hsub
        rcases hsub with h | h
        · exact Nat.lt_succ_of_lt (hlt sub h)
        · rw [h]
          exact Nat.lt_succ_self _
      · rw [List.pairwise_append]
        refine ⟨hpw, List.pairwise_singleton _ _, ?_⟩
        intro a ha b hb
        rw [List.mem_singleton] at hb
        rw [hb]
        exact hlt a ha
  | remove handle =>
    simp only [step, IotNetworkManager_RemoveSubscription]
    split_ifs
    · exact ⟨fun sub hsub => hlt sub (List.mem_of_mem_filter hsub), hpw.filter _⟩
    · exact ⟨hlt, hpw⟩
  | notifyStateChange networkType state =>
    simp only [step, IotNetworkManager_NotifyStateChange]
    split_ifs <;> exact ⟨hlt, hpw⟩

theorem registryInv_run (cs : List Call) (m : NetworkManager) (hinv : RegistryInv m) :
    RegistryInv (run m cs).1 := by
  induction cs generalizing m with
  | nil => exact hinv
  | cons c cs ih => exact ih (step m c).1 (registryInv_step m c hinv)

/-! ## Lemmas on the dispatcher -/

theorem invocationsOf_dispatch (subs : List NetworkManagerSubscription) (h networkType : Nat)
    (state : IotNetworkState) :
    invocationsOf h (dispatch subs networkType state) =
      dispatch (subs.filter (fun sub => sub.handle == h)) networkType state := by
  induction subs with
  | nil => rfl
  | cons x xs ih =>
    unfold invocationsOf dispatch at ih ⊢
    by_cases hm : (x.xNetworkTypes &&& networkType != 0) = true <;>
      by_cases hh : (x.handle == h) = true <;>
      simp [List.filter_cons, hm, hh, ih]

theorem filter_handle_eq_nil (l : List NetworkManagerSubscription) (h : Nat)
    (hne : ∀ sub ∈ l, sub.handle ≠ h) : l.filter (fun sub => sub.handle == h) = [] := by
  rw [List.filter_eq_nil_iff]
  intro sub hsub
  simpa using hne sub hsub

theorem notify_of_supported (m : NetworkManager) (networkType : Nat) (state : IotNetworkState)
    (h : isSingleSupportedType m.supportedNetworks networkType = true) :
    IotNetworkManager_NotifyStateChange m networkType state =
      { error := IOT_NM_SUCCESS
        manager :=
          { m with
            networkStates := fun t => if t = networkType then state else m.networkStates t }
        invocations := dispatch m.subscriptions networkType state } := by
  simp [IotNetworkManager_NotifyStateChange, h]

theorem notify_of_not_supported (m : NetworkManager) (networkType : Nat)
    (state : IotNetworkState)
    (h : isSingleSupportedType m.supportedNetworks networkType = false) :
    IotNetworkManager_NotifyStateChange m networkType state =
      { error := IOT_NM_INVALID, manager := m, invocations := [] } := by
  simp [IotNetworkManager_NotifyStateChange, h]

theorem invocationsOf_step_nil (m : NetworkManager) (c : Call) (h : Nat)
    (hne : ∀ sub ∈ m.subscriptions, sub.handle ≠ h) : invocationsOf h (step m c).2 = [] := by
  cases c with
  | subscribe xNetworkTypes xCallback pvContext => rfl
  | remove handle => rfl
  | notifyStateChange networkType state =>
    simp only [step]
    cases hs : isSingleSupportedType m.supportedNetworks networkType
    · rw [notify_of_not_supported m networkType state hs]
      rfl
    · rw [notify_of_supported m networkType state hs]
      simp only
      rw [invocationsOf_dispatch, filter_handle_eq_nil _ _ hne]
      rfl

theorem no_delivery_run (cs : List Call) (m : NetworkManager) (h : Nat)
    (hne : ∀ sub ∈ m.subscriptions, sub.handle ≠ h) (hlt : h < m.nextHandle) :
    invocationsOf h (run m cs).2 = [] ∧
      ∀ sub ∈ (run m cs).1.subscriptions, sub.handle ≠ h := by
  induction cs generalizing m with
  | nil => exact ⟨rfl, hne⟩
  | cons c cs ih =>
    have hne' : ∀ sub ∈ (step m c).1.subscriptions, sub.handle ≠ h := by
      intro sub hsub
      rcases mem_step_subscriptions m c sub hsub with h' | h'
      · exact hne sub h'
      · exact Nat.ne_of_gt (Nat.lt_of_lt_of_le hlt h')
    have hlt' : h < (step m c).1.nextHandle := Nat.lt_of_lt_of_le hlt (nextHandle_le_step m c)
    obtain ⟨h1, h2⟩ := ih (step m c).1 hne' hlt'
    refine ⟨?_, h2⟩
    simp only [run]
    unfold invocationsOf at h1 ⊢
    rw [List.filter_append, h1, List.append_nil]
    exact invocationsOf_step_nil m c h hne

theorem remove_of_not_active (m : NetworkManager) (h : Nat)
    (hne : ∀ sub ∈ m.subscriptions, sub.handle ≠ h) :
    IotNetworkManager_RemoveSubscription m h = (IOT_NM_INVALID, m) := by
  have : isActive m h = false := by
    rw [← Bool.not_eq_true, isActive_iff]
    rintro ⟨sub, hsub, hh⟩
    exact hne sub hsub hh
  simp [IotNetworkManager_RemoveSubscription, this]

/-! ## The configuration check -/

/-- When both macros are defined as a single integer constant of 64 bits, `e` for
the enabled and `s` for the supported networks, the check produces no diagnostic
exactly when `(e | s) == s`, that is when every bit of `e` is a bit of `s`, that is
when `e & ~s == 0`. -/
theorem configCheck_literal_macros (e s : Nat) (he : e < 2 ^ 64) (hs : s < 2 ^ 64) :
    (configAccepted (some [PPToken.number e]) (some [PPToken.number s]) = true ↔
      (e ||| s) = s) ∧
    (configAccepted (some [PPToken.number e]) (some [PPToken.number s]) = true ↔
      ∀ i, e.testBit i = true → s.testBit i = true) ∧
    ((e ||| s) = s ↔ e &&& maskNot s = 0) := by
  refine ⟨configAccepted_literals e s he hs, ?_, ?_⟩
  · rw [configAccepted_literals e s he hs, lor_eq_right_iff]
  · rw [lor_eq_right_iff, land_maskNot_eq_zero_iff e s he hs]

/-- C1 does not hold of the header: line 39 substitutes the replacement lists of the
two macros without parentheses, and in `#if` an enumerator counts as 0.
With enabled `2` and supported `2 | 4` (masks 2 and 6, a subset) the condition is
`((2 | 2 | 4) != 2) | 4 = 5` and the subset `#error` is reached.
With enabled `1` and supported `2 & 6` (masks 1 and 2, not a subset) the condition is
`((1 | 2 & 6) != 2) & 6 = 0` and the configuration is accepted.
With enabled `IOT_NETWORK_TYPE__CELLULAR` and supported `IOT_NETWORK_TYPE__WIFI`
(masks 16 and 2 in C, not a subset) the condition is `((0 | 0) != 0) = 0` and the
configuration is accepted. -/
theorem configCheck_pasted_tokens_misjudged :
    (ifValue [PPToken.number 2] = some 2 ∧
      ifValue [PPToken.number 2, PPToken.binary BinaryOperator.bitOr, PPToken.number 4] =
        some 6 ∧
      (2 ||| 6) = 6 ∧ 2 &&& maskNot 6 = 0 ∧
      ifValue (subsetCondition [PPToken.number 2]
        [PPToken.number 2, PPToken.binary BinaryOperator.bitOr, PPToken.number 4]) = some 5 ∧
      configDefaultsErrors (some [PPToken.number 2])
          (some [PPToken.number 2, PPToken.binary BinaryOperator.bitOr, PPToken.number 4]) =
        [ConfigError.enabledNotSubsetOfSupported]) ∧
    (ifValue [PPToken.number 1] = some 1 ∧
      ifValue [PPToken.number 2, PPToken.binary BinaryOperator.bitAnd, PPToken.number 6] =
        some 2 ∧
      (1 ||| 2) ≠ 2 ∧ 1 &&& maskNot 2 ≠ 0 ∧
      ifValue (subsetCondition [PPToken.number 1]
        [PPToken.number 2, PPToken.binary BinaryOperator.bitAnd, PPToken.number 6]) = some 0 ∧
      configAccepted (some [PPToken.number 1])
          (some [PPToken.number 2, PPToken.binary BinaryOperator.bitAnd, PPToken.number 6]) =
        true) ∧
    (cValue [PPToken.enumerator IOT_NETWORK_TYPE__CELLULAR] = some 16 ∧
      cValue [PPToken.enumerator IOT_NETWORK_TYPE__WIFI] = some 2 ∧
      (16 ||| 2) ≠ 2 ∧ 16 &&& maskNot 2 ≠ 0 ∧
      ifValue (subsetCondition [PPToken.enumerator IOT_NETWORK_TYPE__CELLULAR]
        [PPToken.enumerator IOT_NETWORK_TYPE__WIFI]) = some 0 ∧
      configAccepted (some [PPToken.enumerator IOT_NETWORK_TYPE__CELLULAR])
          (some [PPToken.enumerator IOT_NETWORK_TYPE__WIFI]) = true) := by
  decide

/-- C10 does not hold of the header for every way of writing a mask: with supported
`2 | 4` (mask 6), the configurations with enabled `0` (NONE) and with enabled `2 | 4`
reach the subset `#error`, because line 39 substitutes the replacement lists without
parentheses: the conditions are `((0 | 2 | 4) != 2) | 4 = 5` and
`((2 | 4 | 2 | 4) != 2) | 4 = 5`. Written as one integer constant, the mask 32, whose
bit 5 lies outside `0x1F` and is no `IotNetworkType_t` value, is accepted as enabled
and supported mask, and with NONE enabled. -/
theorem configCheck_none_enabled_misjudged :
    (ifValue [PPToken.number 2, PPToken.binary BinaryOperator.bitOr, PPToken.number 4] =
        some 6 ∧
      ifValue (subsetCondition [PPToken.number 0]
        [PPToken.number 2, PPToken.binary BinaryOperator.bitOr, PPToken.number 4]) = some 5 ∧
      configDefaultsErrors (some [PPToken.number IOT_NETWORK_TYPE__NONE.val])
          (some [PPToken.number 2, PPToken.binary BinaryOperator.bitOr, PPToken.number 4]) =
        [ConfigError.enabledNotSubsetOfSupported] ∧
      configDefaultsErrors
          (some [PPToken.number 2, PPToken.binary BinaryOperator.bitOr, PPToken.number 4])
          (some [PPToken.number 2, PPToken.binary BinaryOperator.bitOr, PPToken.number 4]) =
        [ConfigError.enabledNotSubsetOfSupported]) ∧
    allDefinedTypes = 0x1F ∧
    (configAccepted (some [PPToken.number 32]) (some [PPToken.number 32]) = true ∧
      configAccepted (some [PPToken.number IOT_NETWORK_TYPE__NONE.val])
        (some [PPToken.number 32]) = true ∧
      (32 : Nat).testBit 5 = true ∧ allDefinedTypes.testBit 5 = false ∧
      ∀ t : IotNetworkType, t.val ≠ 2 ^ 5) := by
  refine ⟨by decide, by decide, by decide, by decide, by decide, by decide, ?_⟩
  intro t
  cases t <;> decide

/-! ## The enumerations -/

/-- C2: the `IotNetworkType_t` values are NONE=0, ETHERNET=1, WIFI=2, BLE=4,
802_15_4=8, CELLULAR=16; each type other than NONE is a power of two (exactly one bit
set); two different types have different values and their bitwise AND is 0. -/
theorem networkType_values_distinct_bits :
    (IOT_NETWORK_TYPE__NONE.val = 0 ∧ IOT_NETWORK_TYPE__ETHERNET.val = 1 ∧
      IOT_NETWORK_TYPE__WIFI.val = 2 ∧ IOT_NETWORK_TYPE__BLE.val = 4 ∧
      IOT_NETWORK_TYPE__802_15_4.val = 8 ∧ IOT_NETWORK_TYPE__CELLULAR.val = 16) ∧
    (∀ t : IotNetworkType, t = IOT_NETWORK_TYPE__NONE ∨
      ∃ k, t.val = 2 ^ k ∧ ∀ i, t.val.testBit i = true ↔ i = k) ∧
    (∀ a b : IotNetworkType, a = b ∨ (a.val ≠ b.val ∧ a.val &&& b.val = 0)) := by
  refine ⟨⟨rfl, rfl, rfl, rfl, rfl, rfl⟩, ?_, ?_⟩
  · intro t
    by_cases ht : t = IOT_NETWORK_TYPE__NONE
    · exact Or.inl ht
    · obtain ⟨k, hk⟩ := val_eq_two_pow t ht
      refine Or.inr ⟨k, hk, fun i => ?_⟩
      rw [hk, Nat.testBit_two_pow]
      simp [eq_comm]
  · intro a b
    cases a <;> cases b <;> first | exact Or.inl rfl | exact Or.inr ⟨by decide, by decide⟩

/-- C9: `IotNetworkState_t` has exactly the four states DISABLED, DISCONNECTED,
CONNECTED and PROVISIONED, with values 0 < 1 < 2 < 3; the values order the states
strictly and totally, and DISABLED has value 0 and is the least. -/
theorem networkState_values_strictly_ordered :
    (∀ s : IotNetworkState, s = IOT_NETWORK_STATE_DISABLED ∨
      s = IOT_NETWORK_STATE_DISCONNECTED ∨ s = IOT_NETWORK_STATE_CONNECTED ∨
      s = IOT_NETWORK_STATE_PROVISIONED) ∧
    Fintype.card IotNetworkState = 4 ∧
    (IOT_NETWORK_STATE_DISABLED.val = 0 ∧ IOT_NETWORK_STATE_DISCONNECTED.val = 1 ∧
      IOT_NETWORK_STATE_CONNECTED.val = 2 ∧ IOT_NETWORK_STATE_PROVISIONED.val = 3) ∧
    (IOT_NETWORK_STATE_DISABLED.val < IOT_NETWORK_STATE_DISCONNECTED.val ∧
      IOT_NETWORK_STATE_DISCONNECTED.val < IOT_NETWORK_STATE_CONNECTED.val ∧
      IOT_NETWORK_STATE_CONNECTED.val < IOT_NETWORK_STATE_PROVISIONED.val) ∧
    (∀ a b : IotNetworkState, a.val < b.val ∨ a = b ∨ b.val < a.val) ∧
    (∀ s : IotNetworkState, IOT_NETWORK_STATE_DISABLED.val ≤ s.val) := by
  refine ⟨?_, rfl, ⟨rfl, rfl, rfl, rfl⟩, ⟨by decide, by decide, by decide⟩, ?_, ?_⟩
  · intro s
    cases s <;> simp
  · intro a b
    cases a <;> cases b <;> decide
  · intro s
    cases s <;> decide

/-- C3: for sets `A` and `B` of network types other than NONE, the bitwise OR of the
values of `A` equals that of `B` if and only if `A = B`; a type `t` is in `A` if and
only if `(mask(A) & t) != 0`; the empty set is encoded as NONE (0). -/
theorem maskOf_denotes_set (A B : Finset IotNetworkType)
    (hA : IOT_NETWORK_TYPE__NONE ∉ A) (hB : IOT_NETWORK_TYPE__NONE ∉ B) :
    (maskOf A = maskOf B ↔ A = B) ∧
    (∀ t : IotNetworkType, t ∈ A ↔ maskOf A &&& t.val ≠ 0) ∧
    maskOf ∅ = IOT_NETWORK_TYPE__NONE.val := by
  refine ⟨⟨fun h => ?_, fun h => by rw [h]⟩, mem_iff_land_val_ne_zero A hA, rfl⟩
  ext t
  rw [mem_iff_land_val_ne_zero A hA, mem_iff_land_val_ne_zero B hB, h]

/-- An instance of C3: the sets {WIFI, BLE} and {WIFI}. -/
theorem maskOf_denotes_set_witness :
    (IOT_NETWORK_TYPE__NONE ∉ ({IOT_NETWORK_TYPE__WIFI, IOT_NETWORK_TYPE__BLE} :
        Finset IotNetworkType) ∧
      IOT_NETWORK_TYPE__NONE ∉ ({IOT_NETWORK_TYPE__WIFI} : Finset IotNetworkType)) ∧
    ((maskOf {IOT_NETWORK_TYPE__WIFI, IOT_NETWORK_TYPE__BLE} = maskOf {IOT_NETWORK_TYPE__WIFI} ↔
        ({IOT_NETWORK_TYPE__WIFI, IOT_NETWORK_TYPE__BLE} : Finset IotNetworkType) =
          {IOT_NETWORK_TYPE__WIFI}) ∧
      (∀ t : IotNetworkType, t ∈ ({IOT_NETWORK_TYPE__WIFI, IOT_NETWORK_TYPE__BLE} :
          Finset IotNetworkType) ↔
        maskOf {IOT_NETWORK_TYPE__WIFI, IOT_NETWORK_TYPE__BLE} &&& t.val ≠ 0) ∧
      maskOf ∅ = IOT_NETWORK_TYPE__NONE.val) :=
  ⟨⟨by decide, by decide⟩, maskOf_denotes_set _ _ (by decide) (by decide)⟩

/-! ## The state table -/

/-- C4: for every supported network type `networkType` and every state `state`,
`IotNetworkManager_NotifyStateChange` succeeds (and succeeds only for such a type),
and afterwards `IotNetworkManager_GetNetworkState` succeeds and yields `state`,
whatever state was stored before; reporting the same state once more leaves it so. -/
theorem notifyStateChange_then_getNetworkState (m : NetworkManager) (networkType : Nat)
    (state : IotNetworkState)
    (hsup : isSingleSupportedType m.supportedNetworks networkType = true) :
    (IotNetworkManager_NotifyStateChange m networkType state).error = IOT_NM_SUCCESS ∧
    IotNetworkManager_GetNetworkState
        (IotNetworkManager_NotifyStateChange m networkType state).manager networkType =
      (IOT_NM_SUCCESS, some state) ∧
    IotNetworkManager_GetNetworkState
        (IotNetworkManager_NotifyStateChange
          (IotNetworkManager_NotifyStateChange m networkType state).manager
          networkType state).manager networkType =
      (IOT_NM_SUCCESS, some state) ∧
    (∀ t : Nat, (IotNetworkManager_NotifyStateChange m t state).error = IOT_NM_SUCCESS ↔
      isSingleSupportedType m.supportedNetworks t = true) := by
  refine ⟨?_, ?_, ?_, ?_⟩
  · rw [notify_of_supported m networkType state hsup]
  · rw [notify_of_supported m networkType state hsup]
    simp [IotNetworkManager_GetNetworkState, hsup]
  · simp [IotNetworkManager_GetNetworkState, IotNetworkManager_NotifyStateChange, hsup]
  · intro t
    cases ht : isSingleSupportedType m.supportedNetworks t
    · rw [notify_of_not_supported m t state ht]
      simp
    · rw [notify_of_supported m t state ht]
      simp

/-- An instance of C4: with WIFI and BLE supported, WIFI is reported DISABLED, the
state it already has at start-up. -/
theorem notifyStateChange_then_getNetworkState_witness :
    isSingleSupportedType (IotNetworkManager_Init 6 4).supportedNetworks 2 = true ∧
    ((IotNetworkManager_NotifyStateChange (IotNetworkManager_Init 6 4) 2
        IOT_NETWORK_STATE_DISABLED).error = IOT_NM_SUCCESS ∧
      IotNetworkManager_GetNetworkState
          (IotNetworkManager_NotifyStateChange (IotNetworkManager_Init 6 4) 2
            IOT_NETWORK_STATE_DISABLED).manager 2 =
        (IOT_NM_SUCCESS, some IOT_NETWORK_STATE_DISABLED) ∧
      IotNetworkManager_GetNetworkState
          (IotNetworkManager_NotifyStateChange
            (IotNetworkManager_NotifyStateChange (IotNetworkManager_Init 6 4) 2
              IOT_NETWORK_STATE_DISABLED).manager
            2 IOT_NETWORK_STATE_DISABLED).manager 2 =
        (IOT_NM_SUCCESS, some IOT_NETWORK_STATE_DISABLED) ∧
      (∀ t : Nat,
        (IotNetworkManager_NotifyStateChange (IotNetworkManager_Init 6 4) t
            IOT_NETWORK_STATE_DISABLED).error = IOT_NM_SUCCESS ↔
          isSingleSupportedType (IotNetworkManager_Init 6 4).supportedNetworks t = true)) :=
  ⟨by decide,
    notifyStateChange_then_getNetworkState (IotNetworkManager_Init 6 4) 2
      IOT_NETWORK_STATE_DISABLED (by decide)⟩

/-! ## Subscribe, notify and remove -/

/-- C6: after any sequence of calls, removing an active handle `h` succeeds; in every
later sequence of calls no notification invokes a callback for `h`; and a second
removal of `h`, right away or after those calls, fails with INVALID and leaves the
manager unchanged. -/
theorem removeSubscription_stops_delivery (supportedNetworks poolSize : Nat)
    (pre post : List Call) (h : Nat) (m : NetworkManager)
    (hm : m = (run (IotNetworkManager_Init supportedNetworks poolSize) pre).1)
    (hact : isActive m h = true) :
    (IotNetworkManager_RemoveSubscription m h).1 = IOT_NM_SUCCESS ∧
    isActive (IotNetworkManager_RemoveSubscription m h).2 h = false ∧
    invocationsOf h (run (IotNetworkManager_RemoveSubscription m h).2 post).2 = [] ∧
    IotNetworkManager_RemoveSubscription (IotNetworkManager_RemoveSubscription m h).2 h =
      (IOT_NM_INVALID, (IotNetworkManager_RemoveSubscription m h).2) ∧
    IotNetworkManager_RemoveSubscription
        (run (IotNetworkManager_RemoveSubscription m h).2 post).1 h =
      (IOT_NM_INVALID, (run (IotNetworkManager_RemoveSubscription m h).2 post).1) := by
  have hinv : RegistryInv m := hm ▸ registryInv_run pre _ (registryInv_init _ _)
  have hrm : IotNetworkManager_RemoveSubscription m h =
      (IOT_NM_SUCCESS,
        { m with subscriptions := m.subscriptions.filter (fun sub => sub.handle != h) }) := by
    simp [IotNetworkManager_RemoveSubscription, hact]
  obtain ⟨s, hs, hsh⟩ := (isActive_iff m h).mp hact
  have hlt : h < (IotNetworkManager_RemoveSubscription m h).2.nextHandle := by
    rw [hrm, ← hsh]
    exact hinv.1 s hs
  have hne : ∀ sub ∈ (IotNetworkManager_RemoveSubscription m h).2.subscriptions,
      sub.handle ≠ h := by
    rw [hrm]
    intro sub hsub
    have := (List.mem_filter.mp hsub).2
    simpa using this
  have hrun := no_delivery_run post _ h hne hlt
  refine ⟨by rw [hrm], ?_, hrun.1, remove_of_not_active _ h hne,
    remove_of_not_active _ h hrun.2⟩
  rw [← Bool.not_eq_true, isActive_iff]
  rintro ⟨sub, hsub, hh⟩
  exact hne sub hsub hh

/-- An instance of C6: the subscription with handle 1 is removed, then WIFI is
reported DISCONNECTED. -/
theorem removeSubscription_stops_delivery_witness :
    isActive (run (IotNetworkManager_Init 6 4) [Call.subscribe 6 1 7]).1 1 = true ∧
    ((IotNetworkManager_RemoveSubscription
          (run (IotNetworkManager_Init 6 4) [Call.subscribe 6 1 7]).1 1).1 = IOT_NM_SUCCESS ∧
      isActive (IotNetworkManager_RemoveSubscription
          (run (IotNetworkManager_Init 6 4) [Call.subscribe 6 1 7]).1 1).2 1 = false ∧
      invocationsOf 1
          (run (IotNetworkManager_RemoveSubscription
              (run (IotNetworkManager_Init 6 4) [Call.subscribe 6 1 7]).1 1).2
            [Call.notifyStateChange 2 IOT_NETWORK_STATE_DISCONNECTED]).2 = [] ∧
      IotNetworkManager_RemoveSubscription
          (IotNetworkManager_RemoveSubscription
            (run (IotNetworkManager_Init 6 4) [Call.subscribe 6 1 7]).1 1).2 1 =
        (IOT_NM_INVALID,
          (IotNetworkManager_RemoveSubscription
            (run (IotNetworkManager_Init 6 4) [Call.subscribe 6 1 7]).1 1).2) ∧
      IotNetworkManager_RemoveSubscription
          (run (IotNetworkManager_RemoveSubscription
              (run (IotNetworkManager_Init 6 4) [Call.subscribe 6 1 7]).1 1).2
            [Call.notifyStateChange 2 IOT_NETWORK_STATE_DISCONNECTED]).1 1 =
        (IOT_NM_INVALID,
          (run (IotNetworkManager_RemoveSubscription
              (run (IotNetworkManager_Init 6 4) [Call.subscribe 6 1 7]).1 1).2
            [Call.notifyStateChange 2 IOT_NETWORK_STATE_DISCONNECTED]).1)) :=
  ⟨by decide,
    removeSubscription_stops_delivery 6 4 [Call.subscribe 6 1 7]
      [Call.notifyStateChange 2 IOT_NETWORK_STATE_DISCONNECTED] 1
      (run (IotNetworkManager_Init 6 4) [Call.subscribe 6 1 7]).1 rfl (by decide)⟩

/-- The scenario of the specification (section 8): supported = WIFI | BLE; a
subscription for WIFI | BLE receives one invocation for (WIFI, CONNECTED) and one for
(BLE, CONNECTED); after it is removed, (WIFI, DISCONNECTED) invokes nothing. -/
theorem specification_scenario :
    exampleFirst.error = IOT_NM_SUCCESS ∧ exampleFirst.handle = some 1 ∧
    (run exampleFirst.manager
        [Call.notifyStateChange 2 IOT_NETWORK_STATE_CONNECTED,
         Call.notifyStateChange 4 IOT_NETWORK_STATE_CONNECTED,
         Call.remove 1,
         Call.notifyStateChange 2 IOT_NETWORK_STATE_DISCONNECTED]).2 =
      [{ handle := 1, xCallback := 1, xNetworkType := 2,
         xNetworkState := IOT_NETWORK_STATE_CONNECTED, pvContext := 7 },
       { handle := 1, xCallback := 1, xNetworkType := 4,
         xNetworkState := IOT_NETWORK_STATE_CONNECTED, pvContext := 7 }] := by
  decide

end IotNetwork
